import Mathlib

/-
  Shallow embedding of the decision functions of the crypto-trading-platform
  strategy files.  All monetary and indicator values are modelled as rationals;
  per-call context objects (analyzed-dataframe candle, open trades, trade fill
  history) are explicit structures.  Each definition mirrors one Python method.
-/

/-- Python's `abs` on a rational, written so that the kernel can evaluate it. -/
def rabs (a : ℚ) : ℚ := if a < 0 then -a else a

/-- Python's binary `max` on rationals, kernel-evaluable. -/
def rmax (a b : ℚ) : ℚ := if a ≤ b then b else a

/-- Python's binary `min` on rationals, kernel-evaluable. -/
def rmin (a b : ℚ) : ℚ := if b ≤ a then b else a

theorem rmax_le_iff {a b c : ℚ} : rmax a b ≤ c ↔ a ≤ c ∧ b ≤ c := by
  unfold rmax; split <;> constructor <;> intro h
  · exact ⟨le_trans (by assumption) h, h⟩
  · exact h.2
  · exact ⟨h, le_trans (le_of_not_le (by assumption)) h⟩
  · exact h.1

theorem le_rmax_left (a b : ℚ) : a ≤ rmax a b := by
  unfold rmax; split
  · assumption
  · exact le_refl a

theorem le_rmax_right (a b : ℚ) : b ≤ rmax a b := by
  unfold rmax; split
  · exact le_refl b
  · exact le_of_not_le (by assumption)

theorem rmin_le_left (a b : ℚ) : rmin a b ≤ a := by
  unfold rmin; split
  · assumption
  · exact le_refl a

theorem rmin_le_right (a b : ℚ) : rmin a b ≤ b := by
  unfold rmin; split
  · exact le_refl b
  · exact le_of_not_le (by assumption)

theorem le_rmin_iff {a b c : ℚ} : c ≤ rmin a b ↔ c ≤ a ∧ c ≤ b := by
  unfold rmin; split <;> constructor <;> intro h
  · exact ⟨le_trans h (by assumption), h⟩
  · exact h.2
  · exact ⟨h, le_trans h (le_of_not_le (by assumption))⟩
  · exact h.1

/-- An open trade as seen by the admission gate: its stake amount and its
recorded stop-loss percentage (None when not yet set, defaulting to 8%). -/
structure OpenTrade where
  stakeAmount : ℚ
  stopLossPct : Option ℚ
deriving DecidableEq, Repr

/-- Risk attributed to one open trade in `confirm_trade_entry`:
`abs(trade.stake_amount * (trade.stop_loss_pct or 0.08))`. -/
def tradeRiskOf (t : OpenTrade) : ℚ :=
  rabs (t.stakeAmount * (t.stopLossPct.getD (8/100)))

/-- Fields read off the last candle of the analyzed dataframe (each read uses
`.get(key, default)`, so absent fields are `none`). -/
structure Candle where
  bbWidth : Option ℚ
  volumeRat : Option ℚ
  rsi : Option ℚ
  atr : Option ℚ
deriving DecidableEq, Repr

/-- Call context of `EnhancedRiskManagedStrategy.confirm_trade_entry`. -/
structure EntryCtx where
  totalStake : ℚ
  openTrades : List OpenTrade
  amount : ℚ
  rate : ℚ
  dataframeEmpty : Bool
  candle : Candle
deriving DecidableEq, Repr

/-- Class-level static stoploss of EnhancedRiskManagedStrategy (`-0.08`). -/
def erms_stoploss : ℚ := -(8/100)

/-- `EnhancedRiskManagedStrategy.confirm_trade_entry`, with the
`max_total_risk` parameter (default 0.25) passed explicitly. -/
def confirm_trade_entry (maxTotalRisk : ℚ) (ctx : EntryCtx) : Bool :=
  if ctx.totalStake ≤ 0 then false
  else if 10 ≤ ctx.openTrades.length then false
  else
    let totalRisk := (ctx.openTrades.map tradeRiskOf).sum
    let tradeRisk := ctx.amount * ctx.rate * (8/100)
    if ctx.totalStake * maxTotalRisk < totalRisk + tradeRisk then false
    else if ctx.dataframeEmpty then false
    else if (25/100 : ℚ) < ctx.candle.bbWidth.getD 0 then false
    else if ctx.candle.volumeRat.getD 0 < 1/2 then false
    else true

/-- Aggregate reserved risk of the currently open positions, as summed by the
admission gate. -/
def aggregateRisk (ctx : EntryCtx) : ℚ :=
  (ctx.openTrades.map tradeRiskOf).sum

/-- Risk attributed to the proposed entry: `amount * rate * 0.08`. -/
def proposedTradeRisk (ctx : EntryCtx) : ℚ :=
  ctx.amount * ctx.rate * (8/100)

/-- Claim C1: if admitting the proposed entry would push the aggregate reserved
risk (sum over open positions of stake times assumed adverse-move fraction)
plus the new trade's risk above `total_capital * max_total_risk`, then
`confirm_trade_entry` returns false; consequently whenever the entry is
admitted the ceiling holds with the new trade's risk included. -/
theorem confirm_trade_entry_risk_ceiling (maxTotalRisk : ℚ) (ctx : EntryCtx)
    (h : ctx.totalStake * maxTotalRisk < aggregateRisk ctx + proposedTradeRisk ctx) :
    confirm_trade_entry maxTotalRisk ctx = false := by
  unfold confirm_trade_entry
  unfold aggregateRisk proposedTradeRisk at h
  split
  · rfl
  · split
    · rfl
    · simp only [h, if_true]

/-- Witness for C1: a concrete over-budget entry request is rejected. -/
theorem confirm_trade_entry_risk_ceiling_witness :
    (100 : ℚ) * (25/100) <
      aggregateRisk ⟨100, [⟨200, some (1/10)⟩], 100, 1, false, ⟨some (1/10), some 1, none, none⟩⟩ +
      proposedTradeRisk ⟨100, [⟨200, some (1/10)⟩], 100, 1, false, ⟨some (1/10), some 1, none, none⟩⟩ ∧
    confirm_trade_entry (25/100) ⟨100, [⟨200, some (1/10)⟩], 100, 1, false, ⟨some (1/10), some 1, none, none⟩⟩ = false :=
  ⟨by norm_num [aggregateRisk, proposedTradeRisk, tradeRiskOf, rabs],
   confirm_trade_entry_risk_ceiling (25/100) _
     (by norm_num [aggregateRisk, proposedTradeRisk, tradeRiskOf, rabs])⟩

/-- Claim C7: with 10 or more open positions, `confirm_trade_entry` returns
false for every risk configuration and every remaining budget — the count
ceiling is independent of the risk-budget check. -/
theorem confirm_trade_entry_count_ceiling (maxTotalRisk : ℚ) (ctx : EntryCtx)
    (h : 10 ≤ ctx.openTrades.length) :
    confirm_trade_entry maxTotalRisk ctx = false := by
  unfold confirm_trade_entry
  split
  · rfl
  · simp only [h, if_true]

/-- Witness for C7: a concrete request with 10 tiny open positions and ample
risk budget is rejected. -/
theorem confirm_trade_entry_count_ceiling_witness :
    10 ≤ (List.replicate 10 (⟨1, some (1/100)⟩ : OpenTrade)).length ∧
    confirm_trade_entry (25/100)
      ⟨1000000, List.replicate 10 ⟨1, some (1/100)⟩, 1, 1, false, ⟨some (1/10), some 1, none, none⟩⟩ = false :=
  ⟨by simp, confirm_trade_entry_count_ceiling (25/100) _ (by simp)⟩

/-- Call context of `EnhancedRiskManagedStrategy.custom_stoploss`: the last
candle's ATR (absent fields default to `current_rate * 0.02`), the current
rate, the hours the trade has been open, and the current profit ratio. -/
structure StopCtx where
  dataframeEmpty : Bool
  atr : Option ℚ
  currentRate : ℚ
  tradeDurationHours : ℚ
  currentProfit : ℚ
deriving DecidableEq, Repr

/-- `EnhancedRiskManagedStrategy.custom_stoploss`: an ATR stop capped at 15%,
scaled by a time factor (or a profit-trailing factor above 5% profit), and
finally floored at the class stoploss `-0.08`. -/
def erms_custom_stoploss (ctx : StopCtx) : ℚ :=
  if ctx.dataframeEmpty then erms_stoploss
  else
    let atr := ctx.atr.getD (ctx.currentRate * (2/100))
    let timeFactor := rmax (1/2) (1 - ctx.tradeDurationHours / 48)
    let atrStopDistance := atr * (5/2) / ctx.currentRate
    let volatilityStop := -(rmin atrStopDistance (15/100))
    let dynamicStop :=
      if (5/100 : ℚ) < ctx.currentProfit then
        rmax (volatilityStop * rmax (1/2) (1 - ctx.currentProfit * 2)) (-(3/100))
      else volatilityStop * timeFactor
    rmax dynamicStop erms_stoploss

/-- Class-level static stoploss of DCAStrategy (`-0.12`). -/
def dca_class_stoploss : ℚ := -(12/100)

/-- `DCAStrategy.custom_stoploss`: the class stoploss is loosened by up to 4%
(1% per DCA order already filled), floored at `-0.25`; above 5% profit a
profit-scaled trailing stop between `-0.05` and `-0.02` may tighten it. -/
def dca_custom_stoploss (dcaOrderCount : ℕ) (currentProfit : ℚ) : ℚ :=
  let dcaAdjustment := rmin (4/100) ((dcaOrderCount : ℚ) * (1/100))
  let adjustedStop := dca_class_stoploss - dcaAdjustment
  let finalStop := rmax adjustedStop (-(25/100))
  if (5/100 : ℚ) < currentProfit then
    let profitFactor := rmin (currentProfit / (20/100)) 1
    rmax finalStop (-(2/100) - (3/100) * (1 - profitFactor))
  else finalStop

theorem erms_stop_ge_floor (ctx : StopCtx) :
    erms_stoploss ≤ erms_custom_stoploss ctx := by
  unfold erms_custom_stoploss
  split
  · exact le_refl _
  · exact le_rmax_right _ _

/-- Counterexample to claim C2: the stop-loss calculation is memoryless, so on
a later tick of the same position (trade open one hour longer, profit
unchanged) a larger ATR makes it return `-0.08`, strictly looser than the
`-0.02` it returned on the earlier tick. -/
theorem erms_stoploss_can_loosen :
    erms_custom_stoploss ⟨false, some 10, 100, 1, 0⟩ <
      erms_custom_stoploss ⟨false, some (4/5), 100, 0, 0⟩ := by
  norm_num [erms_custom_stoploss, erms_stoploss, rmax, rmin]

/-- Claim C2 (amended): tick-over-tick the returned stop may loosen, but it
never loosens past the static floor: the stop returned on the later tick is
at least the minimum of the earlier tick's stop and the static floor `-0.08`. -/
theorem erms_stoploss_floor_across_ticks (prev next : StopCtx) :
    rmin (erms_custom_stoploss prev) erms_stoploss ≤ erms_custom_stoploss next :=
  le_trans (rmin_le_right _ _) (erms_stop_ge_floor next)

/-- Counterexample to claim C3: in DCAStrategy, with one prior DCA fill and no
profit, `custom_stoploss` returns `-0.13`, strictly looser than the class-level
static stoploss `-0.12`. -/
theorem dca_stoploss_below_class_floor :
    dca_custom_stoploss 1 0 < dca_class_stoploss := by
  norm_num [dca_custom_stoploss, dca_class_stoploss, rmax, rmin]

/-- Claim C3 (amended): the Enhanced strategy's dynamic stop is bounded in
looseness by its class stoploss `-0.08` for all inputs, while DCAStrategy's is
bounded only by the hard `-0.25` floor (its class stoploss minus the DCA
patience adjustment of at most 4%), not by its class-level stoploss. -/
theorem stoploss_hard_floors :
    (∀ ctx : StopCtx, erms_stoploss ≤ erms_custom_stoploss ctx) ∧
    (∀ (n : ℕ) (p : ℚ), -(25/100) ≤ dca_custom_stoploss n p) := by
  constructor
  · exact erms_stop_ge_floor
  · intro n p
    unfold dca_custom_stoploss
    split
    · exact le_trans (le_rmax_right _ _) (le_rmax_left _ _)
    · exact le_rmax_right _ _

/-- Tag carried by an order in a trade's fill history (`ft_order_tag`). -/
inductive OrderTag
  | initial
  | dca (level : ℕ)
  | other
deriving DecidableEq, Repr

/-- One order of a trade: its tag, its `order_date` (in hours), whether its
status is still `open`, and `safe_remaining * safe_price` for open orders. -/
structure TradeOrder where
  tag : OrderTag
  orderDate : ℚ
  isOpen : Bool
  remainingValue : ℚ
deriving DecidableEq, Repr

/-- A trade as seen by the DCA controller: cumulative stake and fill history. -/
structure DCATrade where
  stakeAmount : ℚ
  orders : List TradeOrder
deriving DecidableEq, Repr

/-- Configuration parameters of DCAStrategy used by the DCA controller. -/
structure DCAParams where
  dcaEnabled : Bool
  minTimeBetweenEntries : ℚ
  maxTotalAllocation : ℚ
  basePositionSize : ℚ
deriving DecidableEq, Repr

/-- DCAStrategy defaults: dca on, 4h spacing, 35% max allocation, 12% base. -/
def defaultDcaParams : DCAParams := ⟨true, 4, 35/100, 12/100⟩

/-- DCA trigger levels of DCAStrategy (defaults). -/
def dca_level_1 : ℚ := -(5/100)
def dca_level_2 : ℚ := -(10/100)
def dca_level_3 : ℚ := -(18/100)
def dca_level_4 : ℚ := -(28/100)

/-- DCA size multipliers of DCAStrategy (defaults). -/
def dca_size_multiplier_1 : ℚ := 12/10
def dca_size_multiplier_2 : ℚ := 15/10
def dca_size_multiplier_3 : ℚ := 2
def dca_size_multiplier_4 : ℚ := 25/10

/-- Whether an order carries a DCA tag (`'dca' in ft_order_tag`). -/
def isDcaOrder (o : TradeOrder) : Bool :=
  match o.tag with
  | .dca _ => true
  | _ => false

/-- `DCAStrategy.was_dca_level_triggered`: some order of the trade carries the
tag of this level. -/
def was_dca_level_triggered (t : DCATrade) (level : ℕ) : Bool :=
  t.orders.any (fun o => o.tag == OrderTag.dca level)

/-- `max(order.order_date for order in trade.orders)` over a nonempty history
(0 for an empty one, unreached because callers test emptiness first). -/
def lastFillTime : List TradeOrder → ℚ
  | [] => 0
  | o :: os => (os.map TradeOrder.orderDate).foldl rmax o.orderDate

/-- `DCAStrategy.check_dca_timing`: true when the trade has no orders, or when
at least `min_time_between_entries` hours passed since the last order. -/
def check_dca_timing (p : DCAParams) (t : DCATrade) (now : ℚ) : Bool :=
  if t.orders.isEmpty then true
  else if p.minTimeBetweenEntries ≤ now - lastFillTime t.orders then true else false

/-- Value of the still-open DCA orders counted by `check_position_limits`. -/
def pendingDcaValue (t : DCATrade) : ℚ :=
  ((t.orders.filter (fun o => o.isOpen && isDcaOrder o)).map TradeOrder.remainingValue).sum

/-- `DCAStrategy.check_position_limits`: false on a non-positive total stake or
when the current allocation (existing stake plus pending open DCA value,
divided by total stake) has already reached `max_total_allocation`. -/
def check_position_limits (p : DCAParams) (totalStake : ℚ) (t : DCATrade) : Bool :=
  if totalStake ≤ 0 then false
  else if p.maxTotalAllocation ≤ (t.stakeAmount + pendingDcaValue t) / totalStake then false
  else true

/-- `DCAStrategy.get_dca_level_and_size`: pick the most severe level whose
trigger threshold the current profit has reached, size it from the base
position size and the level multiplier, and cap it at 15% of total stake. -/
def dcaSizeAtLevel (p : DCAParams) (totalStake mult : ℚ) : ℚ :=
  rmin (totalStake * p.basePositionSize * mult) (totalStake * (15/100))

def get_dca_level_and_size (p : DCAParams) (totalStake currentProfit : ℚ) :
    Option (ℕ × ℚ) :=
  if currentProfit ≤ dca_level_4 then
    some (4, dcaSizeAtLevel p totalStake dca_size_multiplier_4)
  else if currentProfit ≤ dca_level_3 then
    some (3, dcaSizeAtLevel p totalStake dca_size_multiplier_3)
  else if currentProfit ≤ dca_level_2 then
    some (2, dcaSizeAtLevel p totalStake dca_size_multiplier_2)
  else if currentProfit ≤ dca_level_1 then
    some (1, dcaSizeAtLevel p totalStake dca_size_multiplier_1)
  else none

/-- The decision core of `DCAStrategy.adjust_trade_position`: level and size of
the approved averaging order, or `none`. -/
def dcaDecision (p : DCAParams) (totalStake now currentProfit : ℚ) (t : DCATrade) :
    Option (ℕ × ℚ) :=
  if p.dcaEnabled = false then none
  else if check_dca_timing p t now = false then none
  else if check_position_limits p totalStake t = false then none
  else
    match get_dca_level_and_size p totalStake currentProfit with
    | none => none
    | some (level, size) =>
        if was_dca_level_triggered t level = true then none
        else some (level, size)

/-- `DCAStrategy.adjust_trade_position` returns only the approved size. -/
def adjust_trade_position (p : DCAParams) (totalStake now currentProfit : ℚ)
    (t : DCATrade) : Option ℚ :=
  (dcaDecision p totalStake now currentProfit t).map Prod.snd

/-- One evaluation tick of the DCA controller on a position: when the decision
approves level `n`, an order tagged `dca_n` dated at the tick's time is
appended and the stake grows by the approved size. -/
def dcaStep (p : DCAParams) (totalStake : ℚ) (t : DCATrade) (tick : ℚ × ℚ) : DCATrade :=
  match dcaDecision p totalStake tick.1 tick.2 t with
  | none => t
  | some (level, size) =>
      ⟨t.stakeAmount + size, t.orders ++ [⟨OrderTag.dca level, tick.1, false, 0⟩]⟩

/-- A sequence of evaluation ticks (time, profit) applied to a position. -/
def runDca (p : DCAParams) (totalStake : ℚ) (t : DCATrade) (ticks : List (ℚ × ℚ)) :
    DCATrade :=
  ticks.foldl (dcaStep p totalStake) t

/-- Number of orders of the trade tagged with DCA level `level`. -/
def countDcaLevel (level : ℕ) (t : DCATrade) : ℕ :=
  (t.orders.filter (fun o => o.tag == OrderTag.dca level)).length

theorem dcaDecision_spec {p : DCAParams} {ts now profit : ℚ} {t : DCATrade}
    {lvl : ℕ} {size : ℚ}
    (h : dcaDecision p ts now profit t = some (lvl, size)) :
    p.dcaEnabled = true ∧ check_dca_timing p t now = true ∧
    check_position_limits p ts t = true ∧
    get_dca_level_and_size p ts profit = some (lvl, size) ∧
    was_dca_level_triggered t lvl = false := by
  unfold dcaDecision at h
  split at h
  · cases h
  · split at h
    · cases h
    · split at h
      · cases h
      · split at h
        · cases h
        · split at h
          · cases h
          · injection h with h'
            injection h' with h1 h2
            subst h1; subst h2
            simp_all [Bool.not_eq_false, Bool.not_eq_true]

theorem countDcaLevel_zero_of_not_triggered {t : DCATrade} {lvl : ℕ}
    (h : was_dca_level_triggered t lvl = false) : countDcaLevel lvl t = 0 := by
  unfold was_dca_level_triggered at h
  unfold countDcaLevel
  simp only [List.any_eq_false] at h
  simp only [List.length_eq_zero, List.filter_eq_nil_iff]
  intro a ha
  exact h a ha

theorem check_dca_timing_spacing {p : DCAParams} {t : DCATrade} {now : ℚ}
    (h : check_dca_timing p t now = true) (hne : t.orders ≠ []) :
    p.minTimeBetweenEntries ≤ now - lastFillTime t.orders := by
  unfold check_dca_timing at h
  rw [if_neg (by simpa [List.isEmpty_iff] using hne)] at h
  split at h
  · assumption
  · cases h

theorem countDcaLevel_step_le (p : DCAParams) (ts : ℚ) (tick : ℚ × ℚ)
    (t : DCATrade) (lvl : ℕ) (h : countDcaLevel lvl t ≤ 1) :
    countDcaLevel lvl (dcaStep p ts t tick) ≤ 1 := by
  unfold dcaStep
  cases hd : dcaDecision p ts tick.1 tick.2 t with
  | none => exact h
  | some ls =>
    obtain ⟨level, size⟩ := ls
    have hspec := dcaDecision_spec hd
    by_cases hl : level = lvl
    · subst hl
      have h0 := countDcaLevel_zero_of_not_triggered hspec.2.2.2.2
      unfold countDcaLevel at h0 ⊢
      simp only [List.filter_append, List.length_append, h0]
      simp
    · unfold countDcaLevel at h ⊢
      simp only [List.filter_append, List.length_append]
      have hb : (OrderTag.dca level == OrderTag.dca lvl) = false := by
        rw [beq_eq_false_iff_ne]
        intro hcontra
        exact hl (by injection hcontra)
      have hz : (List.filter (fun o => o.tag == OrderTag.dca lvl)
          ([⟨OrderTag.dca level, tick.1, false, 0⟩] : List TradeOrder)).length = 0 := by
        simp [List.filter, hb]
      omega

theorem countDcaLevel_run_le (p : DCAParams) (ts : ℚ) (lvl : ℕ)
    (ticks : List (ℚ × ℚ)) :
    ∀ t : DCATrade, countDcaLevel lvl t ≤ 1 →
      countDcaLevel lvl (runDca p ts t ticks) ≤ 1 := by
  induction ticks with
  | nil => intro t h; exact h
  | cons tick rest ih =>
      intro t h
      exact ih (dcaStep p ts t tick) (countDcaLevel_step_le p ts tick t lvl h)

/-- Claim C4: over any run of the DCA controller, a given ladder level holds at
most one order of the position (so it fires at most once), and every approval
of an averaging order happens at least `min_time_between_entries` hours after
the position's latest fill (when the position has any fill). -/
theorem dca_level_once_and_min_spacing (p : DCAParams) (ts : ℚ) (t0 : DCATrade)
    (ticks : List (ℚ × ℚ)) (lvl : ℕ) (h : countDcaLevel lvl t0 ≤ 1) :
    countDcaLevel lvl (runDca p ts t0 ticks) ≤ 1 ∧
    (∀ (now profit : ℚ) (t : DCATrade) (level : ℕ) (size : ℚ),
      dcaDecision p ts now profit t = some (level, size) →
      was_dca_level_triggered t level = false ∧
      (t.orders ≠ [] → p.minTimeBetweenEntries ≤ now - lastFillTime t.orders)) := by
  refine ⟨countDcaLevel_run_le p ts lvl ticks t0 h, ?_⟩
  intro now profit t level size hd
  have hspec := dcaDecision_spec hd
  exact ⟨hspec.2.2.2.2, fun hne => check_dca_timing_spacing hspec.2.1 hne⟩

/-- Witness for C4: a concrete position with one initial fill, run over two
ticks both deep enough to trigger level 1, accumulates at most one level-1
order. -/
theorem dca_level_once_and_min_spacing_witness :
    countDcaLevel 1
      (runDca defaultDcaParams 1000 ⟨120, [⟨OrderTag.initial, 0, false, 0⟩]⟩
        [(5, -(6/100)), (10, -(6/100))]) ≤ 1 :=
  (dca_level_once_and_min_spacing defaultDcaParams 1000
    ⟨120, [⟨OrderTag.initial, 0, false, 0⟩]⟩ [(5, -(6/100)), (10, -(6/100))] 1
    (by decide)).1

/-- Counterexample to claim C5: with default parameters, a position holding 34
of a 100 total stake (allocation 34%, below the 35% cap) at −6% profit gets a
level-1 order of size 14.4 approved, after which its cumulative allocation is
48.4% — beyond `max_total_allocation`.  The limit check only tests the
allocation before the new order. -/
theorem dca_allocation_cap_violated :
    adjust_trade_position defaultDcaParams 100 10 (-(6/100))
      ⟨34, [⟨OrderTag.initial, 0, false, 0⟩]⟩ = some (72/5) ∧
    defaultDcaParams.maxTotalAllocation * 100 < 34 + 72/5 := by
  constructor
  · norm_num [adjust_trade_position, dcaDecision, defaultDcaParams,
      check_dca_timing, lastFillTime, check_position_limits, pendingDcaValue,
      isDcaOrder, get_dca_level_and_size, dcaSizeAtLevel, was_dca_level_triggered,
      dca_level_1, dca_level_2, dca_level_3, dca_level_4,
      dca_size_multiplier_1, dca_size_multiplier_2, dca_size_multiplier_3,
      dca_size_multiplier_4, rmin]
    decide
  · norm_num [defaultDcaParams]

theorem dcaSizeAtLevel_le (p : DCAParams) (ts mult : ℚ) :
    dcaSizeAtLevel p ts mult ≤ ts * (15/100) :=
  rmin_le_right _ _

theorem get_dca_size_le {p : DCAParams} {ts profit : ℚ} {lvl : ℕ} {size : ℚ}
    (h : get_dca_level_and_size p ts profit = some (lvl, size)) :
    size ≤ ts * (15/100) := by
  unfold get_dca_level_and_size at h
  split at h
  · injection h with h'; injection h' with h1 h2; exact h2 ▸ dcaSizeAtLevel_le p ts _
  · split at h
    · injection h with h'; injection h' with h1 h2; exact h2 ▸ dcaSizeAtLevel_le p ts _
    · split at h
      · injection h with h'; injection h' with h1 h2; exact h2 ▸ dcaSizeAtLevel_le p ts _
      · split at h
        · injection h with h'; injection h' with h1 h2; exact h2 ▸ dcaSizeAtLevel_le p ts _
        · cases h

/-- Claim C5 (amended): when the DCA controller approves an averaging order,
the allocation checked is the one before the order (existing stake plus any
still-open DCA order value), which must be strictly below
`max_total_allocation`; since every approved order is capped at 15% of total
stake, the cumulative allocation after the order is bounded by
`max_total_allocation + 0.15` of total capital, not by `max_total_allocation`
itself. -/
theorem dca_allocation_pre_check_and_bound (p : DCAParams) (ts now profit : ℚ)
    (t : DCATrade) (lvl : ℕ) (size : ℚ)
    (hpend : 0 ≤ pendingDcaValue t)
    (h : dcaDecision p ts now profit t = some (lvl, size)) :
    0 < ts ∧
    t.stakeAmount + pendingDcaValue t < p.maxTotalAllocation * ts ∧
    t.stakeAmount + size < (p.maxTotalAllocation + 15/100) * ts := by
  have hspec := dcaDecision_spec h
  have hlim := hspec.2.2.1
  unfold check_position_limits at hlim
  split at hlim
  · cases hlim
  · split at hlim
    · cases hlim
    · rename_i h1 h2
      have hts : 0 < ts := lt_of_not_le h1
      have halloc : (t.stakeAmount + pendingDcaValue t) / ts < p.maxTotalAllocation :=
        lt_of_not_le h2
      have hcur : t.stakeAmount + pendingDcaValue t < p.maxTotalAllocation * ts :=
        (div_lt_iff₀ hts).mp halloc
      have hsize : size ≤ ts * (15/100) := get_dca_size_le hspec.2.2.2.1
      refine ⟨hts, hcur, ?_⟩
      nlinarith [hcur, hsize, hpend]

/-- Witness for C5 (amended): the bound evaluated on the concrete scenario of
the counterexample (34 of 100 staked, level-1 order of 14.4 approved). -/
theorem dca_allocation_pre_check_and_bound_witness :
    (0 : ℚ) < 100 ∧
    (34 : ℚ) + pendingDcaValue ⟨34, [⟨OrderTag.initial, 0, false, 0⟩]⟩ <
      defaultDcaParams.maxTotalAllocation * 100 ∧
    (34 : ℚ) + 72/5 < (defaultDcaParams.maxTotalAllocation + 15/100) * 100 := by
  have h : dcaDecision defaultDcaParams 100 10 (-(6/100))
      ⟨34, [⟨OrderTag.initial, 0, false, 0⟩]⟩ = some (1, 72/5) := by
    norm_num [dcaDecision, defaultDcaParams, check_dca_timing, lastFillTime,
      check_position_limits, pendingDcaValue, isDcaOrder,
      get_dca_level_and_size, dcaSizeAtLevel, was_dca_level_triggered,
      dca_level_1, dca_level_2, dca_level_3, dca_level_4,
      dca_size_multiplier_1, dca_size_multiplier_2, dca_size_multiplier_3,
      dca_size_multiplier_4, rmin]
    decide
  exact dca_allocation_pre_check_and_bound defaultDcaParams 100 10 (-(6/100))
    ⟨34, [⟨OrderTag.initial, 0, false, 0⟩]⟩ 1 (72/5)
    (by norm_num [pendingDcaValue, isDcaOrder]) h

/-- The two bodies bound to the name `custom_stake_amount` in the class body of
EnhancedRiskManagedStrategy, in source order: the volatility-scaled,
risk-budgeted sizing (first) and the universal-risk-management integration
(second). -/
inductive StakeMethod
  | riskBudgetedSizing
  | universalRiskMgmt
deriving DecidableEq, Repr

/-- Python class-body semantics: the class dict maps each attribute name to
the value of its latest binding, later definitions shadowing earlier ones. -/
def resolveClassAttr (body : List (String × StakeMethod)) (nm : String) :
    Option StakeMethod :=
  body.foldl (fun acc kv => if kv.1 = nm then some kv.2 else acc) none

/-- The `custom_stake_amount` bindings of EnhancedRiskManagedStrategy's class
body in the order they appear in the file. -/
def ermsClassBody : List (String × StakeMethod) :=
  [("custom_stake_amount", StakeMethod.riskBudgetedSizing),
   ("custom_stake_amount", StakeMethod.universalRiskMgmt)]

/-- Environment of the second `custom_stake_amount`: environment variables
(`none` when unset, defaulting to the string "unknown"), existence of the two
universal risk-management files, the parsed settings/config values, and the
account balance (`none` when falsy). -/
structure UniversalEnv where
  botInstanceId : Option String
  userId : Option String
  settingsFileExists : Bool
  riskConfigFileExists : Bool
  settingsEnabled : Bool
  accountBalance : Option ℚ
  riskPerTrade : ℚ
  pairMultiplier : ℚ
deriving DecidableEq, Repr

/-- The second (effective) `custom_stake_amount` of EnhancedRiskManagedStrategy:
only with both ids known, both files present, the feature enabled and a
positive balance does it compute a risk-config position size; otherwise it
returns the proposed stake unchanged. -/
def erms_custom_stake_amount (env : UniversalEnv) (proposedStake : ℚ)
    (minStake : Option ℚ) (maxStake : ℚ) : ℚ :=
  if env.botInstanceId.getD "unknown" ≠ "unknown" ∧
     env.userId.getD "unknown" ≠ "unknown" then
    if env.settingsFileExists = true ∧ env.riskConfigFileExists = true then
      if env.settingsEnabled = true then
        match env.accountBalance with
        | some bal =>
            if 0 < bal then
              let ps := bal * env.riskPerTrade * env.pairMultiplier
              let ps2 := match minStake with
                         | some m => if m ≠ 0 then rmax ps m else ps
                         | none => ps
              rmin ps2 maxStake
            else proposedStake
        | none => proposedStake
      else proposedStake
    else proposedStake
  else proposedStake

/-- Claim C6: the class dict of EnhancedRiskManagedStrategy binds
`custom_stake_amount` to the second, later definition (the earlier
risk-budgeted sizing is shadowed), and that definition returns the proposed
stake unchanged whenever either universal risk-management file is absent or
either of the BOT_INSTANCE_ID / USER_ID environment variables is unset. -/
theorem custom_stake_amount_shadowing (env : UniversalEnv) (proposedStake : ℚ)
    (minStake : Option ℚ) (maxStake : ℚ)
    (h : env.settingsFileExists = false ∨ env.riskConfigFileExists = false ∨
         env.botInstanceId = none ∨ env.userId = none) :
    resolveClassAttr ermsClassBody "custom_stake_amount" =
      some StakeMethod.universalRiskMgmt ∧
    erms_custom_stake_amount env proposedStake minStake maxStake = proposedStake := by
  refine ⟨by simp [resolveClassAttr, ermsClassBody], ?_⟩
  unfold erms_custom_stake_amount
  rcases h with h | h | h | h
  · by_cases hid : env.botInstanceId.getD "unknown" ≠ "unknown" ∧
        env.userId.getD "unknown" ≠ "unknown"
    · rw [if_pos hid, if_neg (by simp [h])]
    · rw [if_neg hid]
  · by_cases hid : env.botInstanceId.getD "unknown" ≠ "unknown" ∧
        env.userId.getD "unknown" ≠ "unknown"
    · rw [if_pos hid, if_neg (by simp [h])]
    · rw [if_neg hid]
  · rw [if_neg (by simp [h])]
  · rw [if_neg (by simp [h])]

/-- Witness for C6: with both environment variables unset, a concrete sizing
request returns the proposed stake. -/
theorem custom_stake_amount_shadowing_witness :
    resolveClassAttr ermsClassBody "custom_stake_amount" =
      some StakeMethod.universalRiskMgmt ∧
    erms_custom_stake_amount ⟨none, none, true, true, true, some 1000, 1/100, 1⟩
      250 (some 10) 10000 = 250 :=
  custom_stake_amount_shadowing ⟨none, none, true, true, true, some 1000, 1/100, 1⟩
    250 (some 10) 10000 (Or.inr (Or.inr (Or.inl rfl)))

/-- Exit reasons passed to the exit-confirmation hooks. -/
inductive ExitReason
  | stop_loss
  | stoploss_on_exchange
  | emergency_exit
  | roi
  | exit_signal
  | force_exit
  | otherReason
deriving DecidableEq, Repr

/-- Call context of `EnhancedRiskManagedStrategy.confirm_trade_exit`. -/
structure ExitCtx where
  exitReason : ExitReason
  profitRatio : ℚ
  dataframeEmpty : Bool
  rsi : Option ℚ
  bbWidth : Option ℚ
deriving DecidableEq, Repr

/-- `EnhancedRiskManagedStrategy.confirm_trade_exit`: stop-loss and emergency
exits pass immediately; roi / signal exits below 2% profit are rejected unless
RSI is above 80 or Bollinger width above 0.20 on the last candle. -/
def erms_confirm_trade_exit (ctx : ExitCtx) : Bool :=
  if ctx.exitReason = .stop_loss ∨ ctx.exitReason = .stoploss_on_exchange ∨
     ctx.exitReason = .emergency_exit then true
  else if (ctx.exitReason = .roi ∨ ctx.exitReason = .exit_signal) ∧
          ctx.profitRatio < 2/100 then
    if ctx.dataframeEmpty = false then
      if 80 < ctx.rsi.getD 50 ∨ 20/100 < ctx.bbWidth.getD 0 then true else false
    else true
  else true

/-- `PortfolioRebalancingStrategy.confirm_trade_exit`: stop-loss, roi and
force exits pass; a signal exit passes when a rebalancing reduction is needed
or the trade is over 15% profitable, and is rejected otherwise. -/
def prs_confirm_trade_exit (reason : ExitReason) (needsRebal : Bool)
    (positionChange profitRatio : ℚ) : Bool :=
  if reason = .stop_loss ∨ reason = .roi ∨ reason = .force_exit then true
  else if reason = .exit_signal then
    if needsRebal = true ∧ positionChange < 0 then true
    else if 15/100 < profitRatio then true else false
  else true

/-- Claim C8: stop-loss and emergency exit reasons are always confirmed by
both strategies' `confirm_trade_exit`, for every rate, profit and candle; and
in the Enhanced strategy a rejection can only be a roi / signal exit on a
trade below 2% profit with neither RSI above 80 nor Bollinger width above
0.20. -/
theorem confirm_trade_exit_stops_pass (ctx : ExitCtx) (reason : ExitReason)
    (needsRebal : Bool) (positionChange profitRatio : ℚ)
    (hc : ctx.exitReason = .stop_loss ∨ ctx.exitReason = .stoploss_on_exchange ∨
          ctx.exitReason = .emergency_exit)
    (hr : reason = .stop_loss ∨ reason = .emergency_exit) :
    erms_confirm_trade_exit ctx = true ∧
    prs_confirm_trade_exit reason needsRebal positionChange profitRatio = true ∧
    (∀ c : ExitCtx, erms_confirm_trade_exit c = false →
      (c.exitReason = .roi ∨ c.exitReason = .exit_signal) ∧
      c.profitRatio < 2/100 ∧ c.rsi.getD 50 ≤ 80 ∧ c.bbWidth.getD 0 ≤ 20/100) := by
  refine ⟨?_, ?_, ?_⟩
  · unfold erms_confirm_trade_exit
    rw [if_pos hc]
  · unfold prs_confirm_trade_exit
    rcases hr with hr | hr
    · rw [if_pos (Or.inl hr)]
    · subst hr
      rw [if_neg (by simp), if_neg (by simp)]
  · intro c hfalse
    unfold erms_confirm_trade_exit at hfalse
    split at hfalse
    · cases hfalse
    · split at hfalse
      · split at hfalse
        · split at hfalse
          · cases hfalse
          · rename_i hcond hempty hstrong
            push_neg at hstrong
            exact ⟨hcond.1, hcond.2, hstrong.1, hstrong.2⟩
        · cases hfalse
      · cases hfalse

/-- Witness for C8: a concrete stop-loss exit at a loss passes in both
strategies. -/
theorem confirm_trade_exit_stops_pass_witness :
    erms_confirm_trade_exit ⟨.stop_loss, -(8/100), false, some 50, some (1/10)⟩ = true ∧
    prs_confirm_trade_exit .emergency_exit false 0 (-(8/100)) = true :=
  let h := confirm_trade_exit_stops_pass
    ⟨.stop_loss, -(8/100), false, some 50, some (1/10)⟩ .emergency_exit
    false 0 (-(8/100)) (Or.inl rfl) (Or.inr rfl)
  ⟨h.1, h.2.1⟩

/-- Rebalancing parameters of PortfolioRebalancingStrategy (threshold default
0.15, minimum rebalance amount default 100). -/
structure RebalParams where
  rebalanceThreshold : ℚ
  minRebalanceAmount : ℚ
deriving DecidableEq, Repr

/-- `PortfolioRebalancingStrategy.needs_rebalancing` for one category: given
its target fraction, current fraction and the total portfolio value, returns
the flag and the implied position change `total * target - total * current`. -/
def needs_rebalancing (p : RebalParams) (target current totalValue : ℚ) :
    Bool × ℚ :=
  if target = 0 then (false, 0)
  else if p.rebalanceThreshold < rabs (current - target) then
    let positionChange := totalValue * target - totalValue * current
    if rabs positionChange < p.minRebalanceAmount then (false, positionChange)
    else (true, positionChange)
  else (false, 0)

/-- Claim C9: for a category with a nonzero target, the rebalancer flags it
exactly when the allocation drift `|current - target|` exceeds
`rebalance_threshold` and the absolute implied capital move is at least
`min_rebalance_amount`. -/
theorem needs_rebalancing_iff (p : RebalParams) (target current totalValue : ℚ)
    (h : target ≠ 0) :
    (needs_rebalancing p target current totalValue).1 = true ↔
      (p.rebalanceThreshold < rabs (current - target) ∧
       p.minRebalanceAmount ≤ rabs (totalValue * target - totalValue * current)) := by
  unfold needs_rebalancing
  rw [if_neg h]
  by_cases h1 : p.rebalanceThreshold < rabs (current - target)
  · rw [if_pos h1]
    by_cases h2 : rabs (totalValue * target - totalValue * current) <
        p.minRebalanceAmount
    · rw [if_pos h2]
      constructor
      · intro hh; exact absurd hh (by simp)
      · intro hh; exact absurd h2 (not_lt.mpr hh.2)
    · rw [if_neg h2]
      exact ⟨fun _ => ⟨h1, not_lt.mp h2⟩, fun _ => rfl⟩
  · rw [if_neg h1]
    constructor
    · intro hh; exact absurd hh (by simp)
    · intro hh; exact absurd hh.1 h1

/-- Witness for C9: with the default threshold 15% and minimum 100, a category
at 30% against a 40% target (drift 10%) is not flagged, while one at 20%
against 40% in a 2500-unit portfolio (drift 20%, implied move 500) is. -/
theorem needs_rebalancing_iff_witness :
    (needs_rebalancing ⟨15/100, 100⟩ (2/5) (3/10) 2500).1 = false ∧
    (needs_rebalancing ⟨15/100, 100⟩ (2/5) (1/5) 2500).1 = true := by
  constructor
  · have hiff := needs_rebalancing_iff ⟨15/100, 100⟩ (2/5) (3/10) 2500 (by norm_num)
    rw [Bool.eq_false_iff]
    intro hh
    have hcons := hiff.mp hh
    norm_num [rabs] at hcons
  · exact (needs_rebalancing_iff ⟨15/100, 100⟩ (2/5) (1/5) 2500 (by norm_num)).mpr
      (by norm_num [rabs])

/-- Market regimes assigned by `AggressiveSophisticated1m.populate_indicators`:
`0` Uncertain, `1` Uptrend, `2` Downtrend, `3` Range. -/
inductive Regime
  | uncertain
  | uptrend
  | downtrend
  | range
deriving DecidableEq, Repr

/-- The regime assignment of `AggressiveSophisticated1m.populate_indicators`
for one row: start from Uncertain, overwrite with Uptrend / Downtrend when ADX
is above the trend threshold with the matching directional bias, and finally
overwrite with Range when ADX is below the range threshold. -/
def classifyRegime (trendTh rangeTh adx plusDi minusDi : ℚ) : Regime :=
  let r1 := if trendTh < adx ∧ minusDi < plusDi then Regime.uptrend
            else Regime.uncertain
  let r2 := if trendTh < adx ∧ plusDi < minusDi then Regime.downtrend else r1
  if adx < rangeTh then Regime.range else r2

/-- Claim C10: with the range threshold at or below the trend threshold (as in
the defaults 20 and 25), the classifier returns Range whenever ADX is below
the range threshold, Uptrend when ADX exceeds the trend threshold with +DI
above −DI, Downtrend in the symmetric negative case, Uncertain otherwise, and
it is deterministic on identical snapshots. -/
theorem regime_classifier_cases (trendTh rangeTh adx plusDi minusDi : ℚ)
    (hth : rangeTh ≤ trendTh) :
    (adx < rangeTh →
      classifyRegime trendTh rangeTh adx plusDi minusDi = Regime.range) ∧
    (trendTh < adx ∧ minusDi < plusDi →
      classifyRegime trendTh rangeTh adx plusDi minusDi = Regime.uptrend) ∧
    (trendTh < adx ∧ plusDi < minusDi →
      classifyRegime trendTh rangeTh adx plusDi minusDi = Regime.downtrend) ∧
    (¬ adx < rangeTh → ¬(trendTh < adx ∧ minusDi < plusDi) →
      ¬(trendTh < adx ∧ plusDi < minusDi) →
      classifyRegime trendTh rangeTh adx plusDi minusDi = Regime.uncertain) ∧
    classifyRegime trendTh rangeTh adx plusDi minusDi =
      classifyRegime trendTh rangeTh adx plusDi minusDi := by
  refine ⟨?_, ?_, ?_, ?_, rfl⟩
  · intro h
    unfold classifyRegime
    rw [if_pos h]
  · intro h
    have hnr : ¬ adx < rangeTh := not_lt.mpr (le_trans hth (le_of_lt h.1))
    have hnd : ¬(trendTh < adx ∧ plusDi < minusDi) :=
      fun hc => absurd h.2 (not_lt.mpr (le_of_lt hc.2))
    unfold classifyRegime
    rw [if_neg hnr, if_neg hnd, if_pos h]
  · intro h
    have hnr : ¬ adx < rangeTh := not_lt.mpr (le_trans hth (le_of_lt h.1))
    unfold classifyRegime
    rw [if_neg hnr, if_pos h]
  · intro h1 h2 h3
    unfold classifyRegime
    rw [if_neg h1, if_neg h3, if_neg h2]

/-- Witness for C10: with the default thresholds (trend 25, range 20) an ADX
of 10 classifies as Range. -/
theorem regime_classifier_cases_witness :
    classifyRegime 25 20 10 5 5 = Regime.range :=
  (regime_classifier_cases 25 20 10 5 5 (by norm_num)).1 (by norm_num)
